import Mathlib

/-!
Verification of `src/openai/mod.ts` of `ryoppippi/typia-utils`.

The module exports two functions:

* `typiaJsonToOpenAIJsonSchema({jsonSchema, strict})` reads
  `jsonSchema.components.schemas`, throws
  `Error("json_schema.components.schemas is null")` when that mapping is
  `null`/`undefined`, takes the first key of `Object.keys(schemas)`, throws
  `Error("name is null")` when there is none, and returns the object literal
  `{ name, schema: targetSchema, description: targetSchema.description, strict }`.
* `typiaJsonToOpenAIResponse(params)` returns
  `{ type: "json_schema", json_schema: typiaJsonToOpenAIJsonSchema(params) }`.

The embedding below models JavaScript runtime values (with an explicit
`undefined`), JavaScript objects as association lists of own properties in
iteration order (for the string keys appearing here, iteration order is
insertion order), thrown errors as `Except.error`, and the two functions as
total Lean functions over that model.
-/

set_option autoImplicit false

/-- A JavaScript runtime value. `undefined` models `undefined`; `obj` carries the
own properties of an object as an association list in property-iteration
order (JavaScript objects iterate non-integer string keys in insertion
order). -/
inductive Js where
  | undefined : Js
  | null : Js
  | bool : Bool → Js
  | num : Int → Js
  | str : String → Js
  | arr : List Js → Js
  | obj : List (String × Js) → Js

/-- Reading the property `k` from a field list: the value of the first entry
with key `k` (JavaScript objects have unique keys), `undefined` when no entry
has key `k`. This models the indexing `schemas[name]`. -/
def jsGet (fields : List (String × Js)) (k : String) : Js :=
  match fields.lookup k with
  | some v => v
  | none => Js.undefined

/-- JavaScript property access `v.k` on the values it is applied to here:
on an object, the property's value, or `undefined` when the object has no
such property. This models `targetSchema.description`. -/
def Js.getProp : Js → String → Js
  | .obj fields, k => jsGet fields k
  | _, _ => .undefined

/-- Whether a JavaScript object value has `k` among its own property keys
(the `in` operator / `Object.hasOwn`); a property present with the value
`undefined` counts as present. -/
def Js.hasKey : Js → String → Bool
  | .obj fields, k => (fields.lookup k).isSome
  | _, _ => false

/-- The caller-supplied flag of TypeScript type `strict?: boolean | null`:
the property can be absent (`undefined`), `null`, or a boolean. The three
non-boolean states are kept distinct. -/
inductive StrictFlag where
  | absent : StrictFlag
  | null : StrictFlag
  | flag : Bool → StrictFlag
deriving DecidableEq

/-- The `components` object of the document produced by
`typia.json.application`: its `schemas` property is a record from schema
name to schema body, or `null`/`undefined` (`none` — the source only tests
`schemas == null`, which does not distinguish the two). The association
list is in the record's key-iteration order. -/
structure Components where
  schemas : Option (List (String × Js))

/-- The generated-document wrapper `ReturnType<typeof typia.json.application>`:
only its `components` member is read by the source. -/
structure GeneratedSchemaDocument where
  components : Components

/-- The parameter record `TypiaJsonToOpenAIJsonSchemaParams<T>` of the
source: a generated document plus the optional strictness flag. -/
structure TypiaJsonToOpenAIJsonSchemaParams where
  jsonSchema : GeneratedSchemaDocument
  strict : StrictFlag

/-- The two `throw new Error(...)` sites of `typiaJsonToOpenAIJsonSchema`,
named as in the specification. -/
inductive ProjError where
  | MissingSchemaMap : ProjError
  | NoSchemaFound : ProjError
deriving DecidableEq

/-- The message string of the `Error` thrown at each site. -/
def ProjError.message : ProjError → String
  | .MissingSchemaMap => "json_schema.components.schemas is null"
  | .NoSchemaFound => "name is null"

/-- The return type `ResponseFormatJSONSchema.JSONSchema` of the source
function: the object literal `{ name, schema, description, strict }`.
`description` is the raw value of `targetSchema.description` (`undefined` when
the body has no such property); `strict` is the forwarded flag. -/
structure JSONSchema where
  name : String
  schema : Js
  description : Js
  strict : StrictFlag

/-- The function `typiaJsonToOpenAIJsonSchema` of `src/openai/mod.ts`:
reads `components.schemas`, throws when it is `null`/`undefined`, selects
`Object.keys(schemas).at(0)`, throws when the mapping is empty, and builds
`{ name, schema: schemas[name], description: schemas[name].description, strict }`. -/
def typiaJsonToOpenAIJsonSchema (p : TypiaJsonToOpenAIJsonSchemaParams) :
    Except ProjError JSONSchema :=
  match p.jsonSchema.components.schemas with
  | none => .error ProjError.MissingSchemaMap
  | some schemas =>
    match (schemas.map Prod.fst).head? with
    | none => .error ProjError.NoSchemaFound
    | some name =>
      let targetSchema := jsGet schemas name
      .ok { name := name
            schema := targetSchema
            description := targetSchema.getProp "description"
            strict := p.strict }

/-- The envelope type `ResponseFormatJSONSchema` of the openai SDK: a
discriminator property named `type` (always the string `"json_schema"`)
and the projected schema under the property `json_schema`. -/
structure ResponseFormatJSONSchema where
  type : String
  json_schema : JSONSchema

/-- The function `typiaJsonToOpenAIResponse` of `src/openai/mod.ts`:
`{ type: "json_schema", json_schema: typiaJsonToOpenAIJsonSchema(params) }`;
a throw from the inner call propagates unchanged. -/
def typiaJsonToOpenAIResponse (p : TypiaJsonToOpenAIJsonSchemaParams) :
    Except ProjError ResponseFormatJSONSchema :=
  match typiaJsonToOpenAIJsonSchema p with
  | .error e => .error e
  | .ok js => .ok { type := "json_schema", json_schema := js }

/-- The value of the strictness flag as a JavaScript value (an omitted
optional property reads back as `undefined`). -/
def strictToJs : StrictFlag → Js
  | .absent => Js.undefined
  | .null => Js.null
  | .flag b => Js.bool b

/-- The JavaScript object built by the return literal
`{ name, schema: targetSchema, description: targetSchema.description, strict }`:
all four property keys are present (an object literal creates every listed
key, also when its value is `undefined`), in source order. -/
def JSONSchema.toJsObj (r : JSONSchema) : Js :=
  Js.obj [("name", Js.str r.name), ("schema", r.schema),
          ("description", r.description), ("strict", strictToJs r.strict)]

/-- The JavaScript object built by the return literal
`{ type: "json_schema", json_schema: ... }` of `typiaJsonToOpenAIResponse`. -/
def ResponseFormatJSONSchema.toJsObj (e : ResponseFormatJSONSchema) : Js :=
  Js.obj [("type", Js.str e.type), ("json_schema", e.json_schema.toJsObj)]

/-- Characterisation of the successful runs of `typiaJsonToOpenAIJsonSchema`:
it returns `ok r` exactly when the schema mapping is present and non-empty,
and then `r` is built from the first entry and the forwarded flag. -/
theorem typiaJsonToOpenAIJsonSchema_ok_iff (p : TypiaJsonToOpenAIJsonSchemaParams)
    (r : JSONSchema) :
    typiaJsonToOpenAIJsonSchema p = Except.ok r ↔
      ∃ k v rest, p.jsonSchema.components.schemas = some ((k, v) :: rest) ∧
        r = ⟨k, jsGet ((k, v) :: rest) k,
              (jsGet ((k, v) :: rest) k).getProp "description", p.strict⟩ := by
  obtain ⟨⟨⟨schemas⟩⟩, strict⟩ := p
  cases schemas with
  | none => simp [typiaJsonToOpenAIJsonSchema]
  | some l =>
    cases l with
    | nil => simp [typiaJsonToOpenAIJsonSchema]
    | cons hd tl =>
      obtain ⟨k, v⟩ := hd
      simp only [typiaJsonToOpenAIJsonSchema, List.map_cons, List.head?_cons,
        Option.some.injEq, Except.ok.injEq]
      constructor
      · rintro h
        exact ⟨k, v, tl, rfl, h.symm⟩
      · rintro ⟨k', v', rest', hsome, hr⟩
        obtain ⟨⟨rfl, rfl⟩, rfl⟩ : (k = k' ∧ v = v') ∧ tl = rest' := by
          simpa using hsome
        exact hr.symm

/-- The first entry's key always looks itself up to the first entry's value
(`List.lookup` returns the first match). -/
theorem jsGet_cons_self (k : String) (v : Js) (rest : List (String × Js)) :
    jsGet ((k, v) :: rest) k = v := by
  simp [jsGet, List.lookup]

/-- Claim C1: for every document whose schema mapping contains the single
entry mapping "Output" to a body whose top-level `description` is the
string "an output", and strict = true, `typiaJsonToOpenAIJsonSchema`
returns `{ name := "Output", schema := body, description := "an output",
strict := true }`, the `schema` field being the definition body itself,
unchanged. -/
theorem C1_single_entry_happy_path (body : Js)
    (h : body.getProp "description" = Js.str "an output") :
    typiaJsonToOpenAIJsonSchema
        ⟨⟨⟨some [("Output", body)]⟩⟩, StrictFlag.flag true⟩ =
      Except.ok ⟨"Output", body, Js.str "an output", StrictFlag.flag true⟩ := by
  simp [typiaJsonToOpenAIJsonSchema, jsGet_cons_self, h]

/-- Witness for C1 at the concrete body `{ description: "an output" }`. -/
theorem C1_single_entry_happy_path_witness :
    typiaJsonToOpenAIJsonSchema
        ⟨⟨⟨some [("Output", Js.obj [("description", Js.str "an output")])]⟩⟩,
          StrictFlag.flag true⟩ =
      Except.ok ⟨"Output", Js.obj [("description", Js.str "an output")],
        Js.str "an output", StrictFlag.flag true⟩ :=
  C1_single_entry_happy_path (Js.obj [("description", Js.str "an output")]) rfl

/-- Claim C2: for every document whose schema mapping has two or more
entries, the result's `name` is the first key in the mapping's iteration
order (for these string keys, insertion order), silently and without
error. -/
theorem C2_first_key_wins (k : String) (v : Js) (rest : List (String × Js))
    (strict : StrictFlag) (_htwo : rest ≠ []) :
    ∃ r, typiaJsonToOpenAIJsonSchema ⟨⟨⟨some ((k, v) :: rest)⟩⟩, strict⟩ =
          Except.ok r ∧ r.name = k :=
  ⟨_, rfl, rfl⟩

/-- Witness for C2 at the mapping with entries inserted in order
["B", "A"]: the selected name is "B". -/
theorem C2_first_key_wins_witness :
    ∃ r, typiaJsonToOpenAIJsonSchema
          ⟨⟨⟨some [("B", Js.obj []), ("A", Js.obj [])]⟩⟩, StrictFlag.absent⟩ =
          Except.ok r ∧ r.name = "B" :=
  C2_first_key_wins "B" (Js.obj []) [("A", Js.obj [])] StrictFlag.absent
    (List.cons_ne_nil _ _)

/-- Claim C3: `typiaJsonToOpenAIJsonSchema` fails with `MissingSchemaMap`
if and only if the document's schema mapping is `null`/absent; the
`Except.error` result carries no partial output and no default. -/
theorem C3_missing_schema_map_iff (p : TypiaJsonToOpenAIJsonSchemaParams) :
    typiaJsonToOpenAIJsonSchema p = Except.error ProjError.MissingSchemaMap ↔
      p.jsonSchema.components.schemas = none := by
  obtain ⟨⟨⟨schemas⟩⟩, strict⟩ := p
  cases schemas with
  | none => simp [typiaJsonToOpenAIJsonSchema]
  | some l =>
    cases l with
    | nil => simp [typiaJsonToOpenAIJsonSchema]
    | cons hd tl => simp [typiaJsonToOpenAIJsonSchema]

/-- Claim C4: `typiaJsonToOpenAIJsonSchema` fails with `NoSchemaFound` if
and only if the schema mapping is present but empty; and on every mapping
with at least one entry the function returns a result, so the two failures
are the only ones. -/
theorem C4_no_schema_found_iff_total (p : TypiaJsonToOpenAIJsonSchemaParams) :
    (typiaJsonToOpenAIJsonSchema p = Except.error ProjError.NoSchemaFound ↔
      p.jsonSchema.components.schemas = some []) ∧
    (∀ k v rest, p.jsonSchema.components.schemas = some ((k, v) :: rest) →
      ∃ r, typiaJsonToOpenAIJsonSchema p = Except.ok r) := by
  obtain ⟨⟨⟨schemas⟩⟩, strict⟩ := p
  refine ⟨?_, ?_⟩
  · cases schemas with
    | none => simp [typiaJsonToOpenAIJsonSchema]
    | some l =>
      cases l with
      | nil => simp [typiaJsonToOpenAIJsonSchema]
      | cons hd tl => simp [typiaJsonToOpenAIJsonSchema]
  · intro k v rest h
    cases schemas with
    | none => simp at h
    | some l =>
      obtain rfl : l = (k, v) :: rest := by simpa using h
      exact ⟨_, rfl⟩

/-- Witness for C4's totality part at a one-entry mapping. -/
theorem C4_no_schema_found_iff_total_witness :
    ∃ r, typiaJsonToOpenAIJsonSchema
          ⟨⟨⟨some [("Output", Js.obj [])]⟩⟩, StrictFlag.absent⟩ = Except.ok r :=
  (C4_no_schema_found_iff_total
      ⟨⟨⟨some [("Output", Js.obj [])]⟩⟩, StrictFlag.absent⟩).2
    "Output" (Js.obj []) [] rfl

/-- Claim C5, counterexample: on the concrete succeeding input with mapping
`{ "Output": {} }`, the envelope returned by `typiaJsonToOpenAIResponse`
has no property named `kind` at all — its discriminator lives under the
property `type` — so it does not carry the value "json_schema" under the
key `kind` as the claim states. -/
theorem C5_counterexample_no_kind_key :
    typiaJsonToOpenAIResponse ⟨⟨⟨some [("Output", Js.obj [])]⟩⟩, StrictFlag.absent⟩ =
        Except.ok ⟨"json_schema", ⟨"Output", Js.obj [], Js.undefined, StrictFlag.absent⟩⟩ ∧
      Js.hasKey (ResponseFormatJSONSchema.toJsObj
          ⟨"json_schema", ⟨"Output", Js.obj [], Js.undefined, StrictFlag.absent⟩⟩)
          "kind" = false ∧
      Js.getProp (ResponseFormatJSONSchema.toJsObj
          ⟨"json_schema", ⟨"Output", Js.obj [], Js.undefined, StrictFlag.absent⟩⟩)
          "kind" ≠ Js.str "json_schema" :=
  ⟨rfl, rfl, fun h => Js.noConfusion h⟩

/-- Claim C5 (amended): for every input on which the projection succeeds,
`typiaJsonToOpenAIResponse` returns an envelope carrying the discriminator
value "json_schema" under the key `type` and the unchanged projection
result under the key `json_schema`. -/
theorem C5_envelope_type_key (p : TypiaJsonToOpenAIJsonSchemaParams)
    (r : JSONSchema) (h : typiaJsonToOpenAIJsonSchema p = Except.ok r) :
    typiaJsonToOpenAIResponse p =
        Except.ok { type := "json_schema", json_schema := r } ∧
      Js.getProp (ResponseFormatJSONSchema.toJsObj
          { type := "json_schema", json_schema := r }) "type" = Js.str "json_schema" ∧
      Js.getProp (ResponseFormatJSONSchema.toJsObj
          { type := "json_schema", json_schema := r }) "json_schema" = r.toJsObj := by
  refine ⟨?_, rfl, rfl⟩
  simp [typiaJsonToOpenAIResponse, h]

/-- Witness for the amended C5 at the concrete input with mapping
`{ "Output": {} }`. -/
theorem C5_envelope_type_key_witness :
    typiaJsonToOpenAIResponse ⟨⟨⟨some [("Output", Js.obj [])]⟩⟩, StrictFlag.absent⟩ =
        Except.ok ⟨"json_schema", ⟨"Output", Js.obj [], Js.undefined, StrictFlag.absent⟩⟩ ∧
      Js.getProp (ResponseFormatJSONSchema.toJsObj
          ⟨"json_schema", ⟨"Output", Js.obj [], Js.undefined, StrictFlag.absent⟩⟩)
          "type" = Js.str "json_schema" ∧
      Js.getProp (ResponseFormatJSONSchema.toJsObj
          ⟨"json_schema", ⟨"Output", Js.obj [], Js.undefined, StrictFlag.absent⟩⟩)
          "json_schema" =
        JSONSchema.toJsObj ⟨"Output", Js.obj [], Js.undefined, StrictFlag.absent⟩ :=
  C5_envelope_type_key ⟨⟨⟨some [("Output", Js.obj [])]⟩⟩, StrictFlag.absent⟩
    ⟨"Output", Js.obj [], Js.undefined, StrictFlag.absent⟩ rfl

/-- Claim C6: `typiaJsonToOpenAIResponse` fails exactly when
`typiaJsonToOpenAIJsonSchema` fails on the same input, with the very same
error, and introduces no failure mode of its own. -/
theorem C6_error_passthrough (p : TypiaJsonToOpenAIJsonSchemaParams)
    (e : ProjError) :
    typiaJsonToOpenAIResponse p = Except.error e ↔
      typiaJsonToOpenAIJsonSchema p = Except.error e := by
  cases hres : typiaJsonToOpenAIJsonSchema p with
  | error e2 => simp [typiaJsonToOpenAIResponse, hres]
  | ok r => simp [typiaJsonToOpenAIResponse, hres]

/-- Claim C7: on every succeeding input the result's `strict` field is the
caller-supplied flag forwarded verbatim; `StrictFlag` keeps `true`,
`false`, `null` and absent as four distinct values, so none of them is
collapsed into another. -/
theorem C7_strict_forwarded_verbatim (p : TypiaJsonToOpenAIJsonSchemaParams)
    (r : JSONSchema) (h : typiaJsonToOpenAIJsonSchema p = Except.ok r) :
    r.strict = p.strict := by
  obtain ⟨k, v, rest, hs, rfl⟩ := (typiaJsonToOpenAIJsonSchema_ok_iff p r).1 h
  rfl

/-- Witness for C7 at strict = null (not collapsed into absent or false). -/
theorem C7_strict_forwarded_verbatim_witness :
    (⟨"Output", Js.obj [], Js.undefined, StrictFlag.null⟩ : JSONSchema).strict =
      (⟨⟨⟨some [("Output", Js.obj [])]⟩⟩,
          StrictFlag.null⟩ : TypiaJsonToOpenAIJsonSchemaParams).strict :=
  C7_strict_forwarded_verbatim ⟨⟨⟨some [("Output", Js.obj [])]⟩⟩, StrictFlag.null⟩
    ⟨"Output", Js.obj [], Js.undefined, StrictFlag.null⟩ rfl

/-- Claim C8: on every succeeding input whose selected schema body has no
top-level `description` property, the result's `description` is the
JavaScript value `undefined` — not an empty string and not `null`. -/
theorem C8_description_absent (p : TypiaJsonToOpenAIJsonSchemaParams)
    (r : JSONSchema) (h : typiaJsonToOpenAIJsonSchema p = Except.ok r)
    (hnd : r.schema.getProp "description" = Js.undefined) :
    r.description = Js.undefined ∧ r.description ≠ Js.str "" ∧
      r.description ≠ Js.null := by
  obtain ⟨k, v, rest, hs, rfl⟩ := (typiaJsonToOpenAIJsonSchema_ok_iff p r).1 h
  refine ⟨hnd, ?_, ?_⟩ <;> simp_all

/-- Witness for C8 at the body `{ type: "object" }`, which has no
`description` property. -/
theorem C8_description_absent_witness :
    (⟨"Output", Js.obj [("type", Js.str "object")], Js.undefined,
        StrictFlag.absent⟩ : JSONSchema).description = Js.undefined ∧
      (⟨"Output", Js.obj [("type", Js.str "object")], Js.undefined,
          StrictFlag.absent⟩ : JSONSchema).description ≠ Js.str "" ∧
      (⟨"Output", Js.obj [("type", Js.str "object")], Js.undefined,
          StrictFlag.absent⟩ : JSONSchema).description ≠ Js.null :=
  C8_description_absent
    ⟨⟨⟨some [("Output", Js.obj [("type", Js.str "object")])]⟩⟩, StrictFlag.absent⟩
    ⟨"Output", Js.obj [("type", Js.str "object")], Js.undefined, StrictFlag.absent⟩
    rfl rfl

/-- Claim C9: both operations are deterministic, pure functions of their
input — equal (unmutated) inputs give structurally equal outputs, with no
state carried across calls (the embedding is a state-free function of its
argument alone). -/
theorem C9_deterministic (p1 p2 : TypiaJsonToOpenAIJsonSchemaParams)
    (h : p1 = p2) :
    typiaJsonToOpenAIJsonSchema p1 = typiaJsonToOpenAIJsonSchema p2 ∧
      typiaJsonToOpenAIResponse p1 = typiaJsonToOpenAIResponse p2 := by
  subst h
  exact ⟨rfl, rfl⟩

/-- Witness for C9: two calls at one concrete input. -/
theorem C9_deterministic_witness :
    typiaJsonToOpenAIJsonSchema ⟨⟨⟨some [("Output", Js.obj [])]⟩⟩, StrictFlag.flag true⟩ =
        typiaJsonToOpenAIJsonSchema ⟨⟨⟨some [("Output", Js.obj [])]⟩⟩, StrictFlag.flag true⟩ ∧
      typiaJsonToOpenAIResponse ⟨⟨⟨some [("Output", Js.obj [])]⟩⟩, StrictFlag.flag true⟩ =
        typiaJsonToOpenAIResponse ⟨⟨⟨some [("Output", Js.obj [])]⟩⟩, StrictFlag.flag true⟩ :=
  C9_deterministic ⟨⟨⟨some [("Output", Js.obj [])]⟩⟩, StrictFlag.flag true⟩
    ⟨⟨⟨some [("Output", Js.obj [])]⟩⟩, StrictFlag.flag true⟩ rfl

/-- Claim C10 (implicit): on every succeeding input the returned object
always owns the property keys `description` and `strict`; when the body has
no top-level description, or the caller's flag is absent, the key is still
present and bound to the value `undefined` rather than omitted. -/
theorem C10_keys_always_present (p : TypiaJsonToOpenAIJsonSchemaParams)
    (r : JSONSchema) (h : typiaJsonToOpenAIJsonSchema p = Except.ok r) :
    r.toJsObj.hasKey "description" = true ∧ r.toJsObj.hasKey "strict" = true ∧
      (r.schema.getProp "description" = Js.undefined →
        r.toJsObj.getProp "description" = Js.undefined) ∧
      (p.strict = StrictFlag.absent → r.toJsObj.getProp "strict" = Js.undefined) := by
  obtain ⟨k, v, rest, hs, rfl⟩ := (typiaJsonToOpenAIJsonSchema_ok_iff p r).1 h
  refine ⟨rfl, rfl, ?_, ?_⟩
  · intro hnd
    simpa [JSONSchema.toJsObj, Js.getProp, jsGet, List.lookup] using hnd
  · intro habs
    simp [JSONSchema.toJsObj, Js.getProp, jsGet, List.lookup, habs, strictToJs]

/-- Witness for C10 at a body with no description and an absent flag: both
keys are present on the returned object and both read back `undefined`. -/
theorem C10_keys_always_present_witness :
    (⟨"Output", Js.obj [], Js.undefined, StrictFlag.absent⟩ : JSONSchema).toJsObj.hasKey
        "description" = true ∧
      (⟨"Output", Js.obj [], Js.undefined, StrictFlag.absent⟩ : JSONSchema).toJsObj.hasKey
        "strict" = true ∧
      (⟨"Output", Js.obj [], Js.undefined, StrictFlag.absent⟩ : JSONSchema).toJsObj.getProp
        "description" = Js.undefined ∧
      (⟨"Output", Js.obj [], Js.undefined, StrictFlag.absent⟩ : JSONSchema).toJsObj.getProp
        "strict" = Js.undefined :=
  ⟨(C10_keys_always_present ⟨⟨⟨some [("Output", Js.obj [])]⟩⟩, StrictFlag.absent⟩
      ⟨"Output", Js.obj [], Js.undefined, StrictFlag.absent⟩ rfl).1,
    (C10_keys_always_present ⟨⟨⟨some [("Output", Js.obj [])]⟩⟩, StrictFlag.absent⟩
      ⟨"Output", Js.obj [], Js.undefined, StrictFlag.absent⟩ rfl).2.1,
    (C10_keys_always_present ⟨⟨⟨some [("Output", Js.obj [])]⟩⟩, StrictFlag.absent⟩
      ⟨"Output", Js.obj [], Js.undefined, StrictFlag.absent⟩ rfl).2.2.1 rfl,
    (C10_keys_always_present ⟨⟨⟨some [("Output", Js.obj [])]⟩⟩, StrictFlag.absent⟩
      ⟨"Output", Js.obj [], Js.undefined, StrictFlag.absent⟩ rfl).2.2.2 rfl⟩
